/-
Verification development for the FunWebv2 motion simulator (sims.js).

The simulation script is a per-frame physics/sampling loop: `simTick`
advances the two moving objects, appends telemetry samples, updates the
visual particle state, and decides whether the run has ended.  All numeric
values are modelled as rationals (`ℚ`): JavaScript numbers are finite in
every execution path the claims concern, and the operations used
(+, -, *, /, min, max, round) are exact on the inputs involved.

DOM reads of slider values are modelled by a `Params` record; JavaScript's
`a || b` defaulting on numeric slider reads (which fires when the value is
0) is modelled by `numOr`.  Drawing calls that do not touch simulation
state are omitted; the one drawing routine that does mutate state
(`drawBoostParticles`, which spawns/ages the boost-zone particles using
`Math.random()`) is modelled with an explicit stream of random draws.
-/
import Mathlib

namespace FunWeb

set_option maxHeartbeats 2000000

/-- `clamp` helper from sims.js: `(v, a, b) => Math.max(a, Math.min(b, v))`. -/
def clampQ (v a b : ℚ) : ℚ := max a (min b v)

/-- JavaScript `Math.round` as an integer: round half toward positive
infinity. -/
def jsRoundZ (q : ℚ) : ℤ := ⌊q + 1/2⌋

/-- JavaScript `Math.round`: round half toward positive infinity. -/
def jsRound (q : ℚ) : ℚ := (jsRoundZ q : ℤ)

/-- JavaScript numeric defaulting `v || d`: a numeric read that is falsy
(i.e. equal to 0) falls back to the default. -/
def numOr (v d : ℚ) : ℚ := if v = 0 then d else v

/-- Pull the next pseudo-random draw (a stand-in for `Math.random()`,
a value in [0,1)) off the stream. -/
def nextRand : List ℚ → ℚ × List ℚ
  | [] => (0, [])
  | r :: rs => (r, rs)

/-- One track zone, as built by `computeZones`: an id, a pixel interval
`[x, x+w]`, a display color and a target-speed multiplier. -/
structure Zone where
  id : String
  x : ℚ
  w : ℚ
  color : String
  multiplier : ℚ
deriving DecidableEq

/-- One boost-zone visual particle (from `drawBoostParticles`). -/
structure Particle where
  x : ℚ
  y : ℚ
  vx : ℚ
  vy : ℚ
  life : ℚ
deriving DecidableEq

/-- One of the two moving objects (`objects.A` / `objects.B`):
identity, color, mass and speed-multiplier sliders, cumulative covered
distance in meters, and the trail buffer of (pixel x, sim time) samples. -/
structure MovingObject where
  id : String
  color : String
  mass : ℚ
  speedMult : ℚ
  covered_m : ℚ
  trail : List (ℚ × ℚ)
deriving DecidableEq

/-- The graph sample arrays (`samples`), parallel append-only series. -/
structure Samples where
  t : List ℚ
  aDist : List ℚ
  bDist : List ℚ
  aSpeed : List ℚ
  bSpeed : List ℚ
deriving DecidableEq

/-- `samples.max`: the bound on the retained sample length. -/
def samplesMax : Nat := 1500

/-- The slider-derived parameter bag read live by the tick:
distance and time inputs, friction and turbo inputs, and whether the
unit `<select>` is set to km/h. -/
structure Params where
  distance : ℚ
  time : ℚ
  friction : ℚ
  turbo : ℚ
  kmh : Bool
deriving DecidableEq

/-- The module-level simulation state (`state` plus `objects`, `samples`
and `particles`). -/
structure SimState where
  running : Bool
  lastTs : Option ℚ
  simTime : ℚ
  dpr : ℚ
  width : ℚ
  height : ℚ
  trackPad : ℚ
  trackStartPx : ℚ
  trackEndPx : ℚ
  trackLenPx : ℚ
  zones : List Zone
  objA : MovingObject
  objB : MovingObject
  samples : Samples
  particles : List Particle
deriving DecidableEq

/-- `computeZones`: derive the track geometry from the canvas width and
build the three zones (normal 35%, boost 30%, slow the rest). -/
def computeZones (st : SimState) : SimState :=
  let pad := jsRound (st.width * (6/100))
  let startX := pad
  let endX := st.width - pad
  let total := endX - startX
  let normalW := total * (35/100)
  let boostW := total * (3/10)
  let slowW := total - (normalW + boostW)
  { st with
    trackPad := pad
    trackStartPx := startX
    trackEndPx := endX
    trackLenPx := total
    zones := [
      { id := "normal", x := startX, w := normalW, color := "#1ccfff", multiplier := 1 },
      { id := "boost", x := startX + normalW, w := boostW, color := "#00ff85", multiplier := 3/2 },
      { id := "slow", x := startX + normalW + boostW, w := slowW, color := "#ff8c00", multiplier := 3/5 }] }

/-- `zoneAtPx`: first zone whose closed pixel interval contains `px`,
falling back to `state.zones[0]` (absent when the zone list is empty). -/
def zoneAtPx (zones : List Zone) (px : ℚ) : Option Zone :=
  match zones.find? (fun z => decide (px ≥ z.x ∧ px ≤ z.x + z.w)) with
  | some z => some z
  | none => zones.head?

/-- `baseSpeed_mps`: Distance / Time in m/s, with the `|| 100` / `|| 10`
slider fallbacks and the km/h unit conversion. -/
def baseSpeed_mps (p : Params) : ℚ :=
  let d := numOr p.distance 100
  let t := numOr p.time 10
  if p.kmh then (d * 1000) / max (1/10000) (t * 3600)
  else d / max (1/10000) t

/-- The raw UI total distance in meters as read inside the tick
(no fallback: `Number(distanceInput.value)`, times 1000 in km/h mode). -/
def totalDistMeters (p : Params) : ℚ :=
  if p.kmh then p.distance * 1000 else p.distance

/-- `distanceToPixel`: map covered meters onto the track pixel span.
A falsy (zero) distance input selects the fallback 100 m track. -/
def distanceToPixel (st : SimState) (p : Params) (distMeters : ℚ) : ℚ :=
  if p.distance ≠ 0 then
    let totalDist := totalDistMeters p
    if totalDist ≤ 0 then st.trackStartPx
    else st.trackStartPx + clampQ (distMeters / totalDist) 0 1 * st.trackLenPx
  else
    st.trackStartPx + clampQ (distMeters / 100) 0 1 * st.trackLenPx

/-- `effectiveSpeedFor`: per-frame effective speed, recomputed directly as
base × speedMult × zoneMultiplier × (1/mass) and clamped to
[0, base × max(0.01, speedMult) × 6]. -/
def effectiveSpeedFor (st : SimState) (p : Params) (obj : MovingObject) : ℚ :=
  let base := baseSpeed_mps p
  if base > 0 then
    let massFactor := 1 / max (1/10000) obj.mass
    let px := distanceToPixel st p obj.covered_m
    let zone := zoneAtPx st.zones px
    let zoneMult := match zone with | some z => z.multiplier | none => 1
    let eff := base * numOr obj.speedMult 1 * zoneMult * massFactor
    clampQ eff 0 (base * max (1/100) (numOr obj.speedMult 1) * 6)
  else 0

/-- The per-object body of the tick's `['A','B'].forEach` loop: compute the
effective speed, apply the friction percentage reduction and the turbo
multiplier, integrate and clamp the covered distance, and push a trail
sample (evicting the oldest past 1000 entries). -/
def updateObject (st : SimState) (p : Params) (friction turbo dt simTime : ℚ)
    (obj : MovingObject) : MovingObject :=
  let eff := effectiveSpeedFor st p obj
  let effAfterF := eff * (1 - clampQ friction 0 (99/100))
  let finalSpeed := effAfterF * clampQ turbo (1/10) 4
  let covered := clampQ (obj.covered_m + finalSpeed * dt) 0 (totalDistMeters p)
  let trail := obj.trail ++ [(distanceToPixel st p covered, simTime)]
  let trail := if trail.length > 1000 then trail.tail else trail
  { obj with covered_m := covered, trail := trail }

/-- Particle spawning loop of `drawBoostParticles`: each new particle
consumes five random draws (x, y, vx, vy, life). -/
def spawnParticles (boost : Zone) (height : ℚ) :
    Nat → List Particle → List ℚ → List Particle × List ℚ
  | 0, ps, rng => (ps, rng)
  | n + 1, ps, rng =>
    let (r1, rng) := nextRand rng
    let (r2, rng) := nextRand rng
    let (r3, rng) := nextRand rng
    let (r4, rng) := nextRand rng
    let (r5, rng) := nextRand rng
    let p : Particle := {
      x := boost.x + r1 * boost.w
      y := height * (1/2) + (r2 * 20 - 10)
      vx := r3 * (6/10) - 3/10
      vy := r4 * (-3/10)
      life := 1 + r5 * (6/10) }
    spawnParticles boost height n (ps ++ [p]) rng

/-- Particle aging loop of `drawBoostParticles`, which walks the array
backwards: move each particle, decay its life by 0.02 plus a random
amount, splice it out when dead, and consume one more random draw (the
drawn radius) when alive.  The input list here is the reversed particle
array, so random draws are consumed in the source's order. -/
def ageParticlesRev (dpr : ℚ) :
    List Particle → List ℚ → List Particle × List ℚ
  | [], rng => ([], rng)
  | p :: rest, rng =>
    let (r1, rng) := nextRand rng
    let x := p.x + p.vx * (1 + dpr * (2/10))
    let y := p.y + p.vy
    let life := p.life - (2/100 + r1 * (2/100))
    if life ≤ 0 then
      ageParticlesRev dpr rest rng
    else
      let (_, rng) := nextRand rng
      let (kept, rng) := ageParticlesRev dpr rest rng
      ({ p with x := x, y := y, life := life } :: kept, rng)

/-- State effect of `drawBoostParticles`: spawn new particles inside the
boost zone, age/evict the existing ones, and cap the buffer at 200 by
dropping the oldest.  A missing boost zone leaves the buffer untouched. -/
def drawBoostParticlesState (st : SimState) (rng : List ℚ) : List Particle :=
  match st.zones.find? (fun z => decide (z.id = "boost")) with
  | none => st.particles
  | some boost =>
    let spawn := max 1 (jsRoundZ ((4/10) * st.dpr)).toNat
    let (ps, rng) := spawnParticles boost st.height spawn st.particles rng
    let (agedRev, _) := ageParticlesRev st.dpr ps.reverse rng
    let aged := agedRev.reverse
    if aged.length > 200 then aged.drop (aged.length - 200) else aged

/-- The frame delta in seconds derived by `simTick` from the callback
timestamp: `if (!state.lastTs) state.lastTs = ts; const dtMs = ts -
state.lastTs; ... const dt = dtMs / 1000`.  A falsy stored timestamp
(absent, or the number 0) is replaced by `ts`, making the delta zero. -/
def tickDt (st : SimState) (ts : ℚ) : ℚ :=
  let last := match st.lastTs with
    | none => ts
    | some v => if v = 0 then ts else v
  let dtMs := ts - last
  dtMs / 1000

/-- `simTick`: one frame of the simulation, given the callback timestamp
`ts` (milliseconds) and the stream of `Math.random()` draws consumed by
the boost-particle rendering.  Mirrors sims.js lines 415–507: a paused
state returns immediately; otherwise dt is derived from the timestamp
delta (unclamped), both objects are integrated, graph samples and
instantaneous speeds are appended, the particles are updated, and the run
is stopped as soon as either object's covered distance reaches the total
distance (skipping the sample trim on that final frame). -/
def simTick (p : Params) (ts : ℚ) (rng : List ℚ) (st : SimState) : SimState :=
  if ¬ st.running then st
  else
    let dt := tickDt st ts
    let simTime := st.simTime + dt
    let friction := numOr p.friction 0
    let turbo := numOr p.turbo 1
    let objA := updateObject st p friction turbo dt simTime st.objA
    let objB := updateObject st p friction turbo dt simTime st.objB
    let t := st.samples.t ++ [simTime]
    let aDist := st.samples.aDist ++ [objA.covered_m]
    let bDist := st.samples.bDist ++ [objB.covered_m]
    let n := t.length
    let inst :=
      if n ≥ 2 then
        let dtS := t.getD (n - 1) 0 - t.getD (n - 2) 0
        if dtS > 0 then
          ((aDist.getD (n - 1) 0 - aDist.getD (n - 2) 0) / dtS,
           (bDist.getD (n - 1) 0 - bDist.getD (n - 2) 0) / dtS)
        else (0, 0)
      else (0, 0)
    let aSpeed := st.samples.aSpeed ++ [inst.1]
    let bSpeed := st.samples.bSpeed ++ [inst.2]
    let particles := drawBoostParticlesState st rng
    let tdm := totalDistMeters p
    let endedA := objA.covered_m ≥ tdm
    let endedB := objB.covered_m ≥ tdm
    if endedA ∨ endedB then
      { st with
        running := false
        lastTs := some ts
        simTime := simTime
        objA := objA
        objB := objB
        samples := ⟨t, aDist, bDist, aSpeed, bSpeed⟩
        particles := particles }
    else
      let samples : Samples :=
        if t.length > samplesMax then
          ⟨t.tail, aDist.tail, bDist.tail, aSpeed.tail, bSpeed.tail⟩
        else ⟨t, aDist, bDist, aSpeed, bSpeed⟩
      { st with
        lastTs := some ts
        simTime := simTime
        objA := objA
        objB := objB
        samples := samples
        particles := particles }

/-- Run a sequence of frames; each frame supplies its callback timestamp
and its stream of random draws. -/
def runTicks (p : Params) : List (ℚ × List ℚ) → SimState → SimState
  | [], st => st
  | (ts, rng) :: rest, st => runTicks p rest (simTick p ts rng st)

/-- `resetSimulation` (state effect only; the display/draw calls it makes
do not touch simulation state). -/
def resetSimulation (st : SimState) : SimState :=
  { st with
    running := false
    lastTs := none
    simTime := 0
    objA := { st.objA with covered_m := 0, trail := [] }
    objB := { st.objB with covered_m := 0, trail := [] }
    samples := ⟨[], [], [], [], []⟩
    particles := [] }

/-- `startSimulation`: a no-op while running; resets first when the clock
is at (or before) zero; then raises the running flag and clears the
frame-timestamp baseline. -/
def startSimulation (st : SimState) : SimState :=
  if st.running then st
  else
    let st1 := if st.simTime ≤ 0 then resetSimulation st else st
    { st1 with running := true, lastTs := none }

/-- `pauseSimulation`: clears the running flag. -/
def pauseSimulation (st : SimState) : SimState :=
  { st with running := false }

/-- Forget the (purely visual) particle buffer; two states are
physics-equal when they agree after erasure. -/
def eraseParticles (st : SimState) : SimState :=
  { st with particles := [] }

/-! ### Concrete fixtures used by counterexamples and witnesses -/

/-- `objects.A` with its script defaults (mass 1.0, speedMult 1.0). -/
def objAInit : MovingObject :=
  { id := "A", color := "#ff3cac", mass := 1, speedMult := 1, covered_m := 0, trail := [] }

/-- `objects.B` with its script defaults (mass 1.2, speedMult 0.98). -/
def objBInit : MovingObject :=
  { id := "B", color := "#10f0ff", mass := 12/10, speedMult := 98/100, covered_m := 0, trail := [] }

/-- A fresh state record on a 1000-pixel-wide canvas, before
`computeZones` establishes the zone list. -/
def rawState : SimState :=
  { running := false
    lastTs := none
    simTime := 0
    dpr := 1
    width := 1000
    height := 400
    trackPad := 60
    trackStartPx := 60
    trackEndPx := 940
    trackLenPx := 880
    zones := []
    objA := objAInit
    objB := objBInit
    samples := ⟨[], [], [], [], []⟩
    particles := [] }

/-- A freshly initialised state on the 1000-pixel-wide canvas:
`computeZones` gives pad 60, track [60, 940], zones
normal [60, 368], boost [368, 632], slow [632, 940]. -/
def initState : SimState := computeZones rawState

/-- `initState` mid-run, with a frame-timestamp baseline of 1000 ms. -/
def runState : SimState :=
  { initState with running := true, lastTs := some 1000 }

/-- Slider values: 100 m, 10 s, friction 0, turbo 1, metric units. -/
def testParams : Params :=
  { distance := 100, time := 10, friction := 0, turbo := 1, kmh := false }

/-! ### Definitions written from the spec's words, for comparison only -/

/-- Written from the spec's words (claim C1), not from the code: the
responsiveness factor said to be "mass/10 clamped to [0.5, 50]". -/
def specMassFactor (mass : ℚ) : ℚ := clampQ (mass / 10) (1/2) 50

/-- Written from the spec's words (claim C1), not from the code: one
incremental speed update, acceleration = (zoneTargetSpeed − v)/massFactor
and v' = v + (acceleration − frictionResistance)·dt clamped to ≥ 0. -/
def specSpeedStep (zoneTarget v mass frictionResistance dt : ℚ) : ℚ :=
  max 0 (v + ((zoneTarget - v) / specMassFactor mass - frictionResistance) * dt)

/-- Written from the spec's words (claim C7), not from the code: the
friction derate said to be "frictionPct/200 clamped to 0.9". -/
def specFrictionDerate (pct : ℚ) : ℚ := min (pct / 200) (9/10)

/-! ### Helper lemmas -/

lemma clampQ_nonneg (v b : ℚ) : 0 ≤ clampQ v 0 b := le_max_left 0 _

lemma le_clampQ (v a b : ℚ) : a ≤ clampQ v a b := le_max_left a _

lemma clampQ_le_right (v a b : ℚ) (hab : a ≤ b) : clampQ v a b ≤ b :=
  max_le hab (min_le_left b v)

lemma clampQ_mono {v w : ℚ} (a b : ℚ) (h : v ≤ w) : clampQ v a b ≤ clampQ w a b :=
  max_le_max le_rfl (min_le_min le_rfl h)

lemma effectiveSpeedFor_nonneg (st : SimState) (p : Params) (obj : MovingObject) :
    0 ≤ effectiveSpeedFor st p obj := by
  simp only [effectiveSpeedFor]
  split
  · exact clampQ_nonneg _ _
  · exact le_rfl

lemma one_sub_clampF_nonneg (f : ℚ) : 0 ≤ 1 - clampQ f 0 (99/100) := by
  have h := clampQ_le_right f 0 (99/100) (by norm_num)
  linarith

lemma clampT_nonneg (tb : ℚ) : 0 ≤ clampQ tb (1/10) 4 :=
  le_trans (by norm_num) (le_clampQ tb (1/10) 4)

/-- The per-step speed used by the tick (after friction and turbo) is
never negative. -/
lemma stepSpeed_nonneg (st : SimState) (p : Params) (f tb : ℚ) (obj : MovingObject) :
    0 ≤ effectiveSpeedFor st p obj * (1 - clampQ f 0 (99/100)) * clampQ tb (1/10) 4 :=
  mul_nonneg (mul_nonneg (effectiveSpeedFor_nonneg st p obj) (one_sub_clampF_nonneg f))
    (clampT_nonneg tb)

/-- One object update neither decreases the covered distance nor pushes
it past the configured total distance. -/
lemma updateObject_covered_between (st : SimState) (p : Params) (f tb dt T : ℚ)
    (obj : MovingObject) (h0 : 0 ≤ obj.covered_m) (hD : obj.covered_m ≤ totalDistMeters p)
    (hdt : 0 ≤ dt) :
    obj.covered_m ≤ (updateObject st p f tb dt T obj).covered_m ∧
    (updateObject st p f tb dt T obj).covered_m ≤ totalDistMeters p := by
  have hs : 0 ≤ effectiveSpeedFor st p obj * (1 - clampQ f 0 (99/100)) *
      clampQ tb (1/10) 4 * dt := mul_nonneg (stepSpeed_nonneg st p f tb obj) hdt
  constructor
  · show obj.covered_m ≤ clampQ _ 0 (totalDistMeters p)
    calc obj.covered_m = clampQ obj.covered_m 0 (totalDistMeters p) := by
          rw [clampQ, min_eq_right hD, max_eq_right h0]
      _ ≤ _ := clampQ_mono 0 (totalDistMeters p) (by linarith)
  · exact clampQ_le_right _ 0 (totalDistMeters p) (le_trans h0 hD)

lemma numOr_pos {v : ℚ} (d : ℚ) (hv : 0 < v) (hd : 0 < d) : 0 < numOr v d := by
  unfold numOr
  split
  · exact hd
  · exact hv

lemma baseSpeed_pos (p : Params) (hd : 0 < p.distance) : 0 < baseSpeed_mps p := by
  have h1 : 0 < numOr p.distance 100 := numOr_pos 100 hd (by norm_num)
  have hmax : ∀ x : ℚ, 0 < max (1/10000 : ℚ) x :=
    fun x => lt_of_lt_of_le (by norm_num) (le_max_left _ x)
  simp only [baseSpeed_mps]
  split
  · exact div_pos (mul_pos h1 (by norm_num)) (hmax _)
  · exact div_pos h1 (hmax _)

/-! ### Claim theorems -/

/-- C9: `resetSimulation` is idempotent, and after a reset the clock is
zero, the running flag is false, the frame-timestamp baseline is cleared,
both objects' covered distances are zero, and the trail and sample
sequences are all empty. -/
theorem reset_idempotent_clears (st : SimState) :
    resetSimulation (resetSimulation st) = resetSimulation st ∧
    (resetSimulation st).running = false ∧
    (resetSimulation st).simTime = 0 ∧
    (resetSimulation st).lastTs = none ∧
    (resetSimulation st).objA.covered_m = 0 ∧
    (resetSimulation st).objB.covered_m = 0 ∧
    (resetSimulation st).objA.trail = [] ∧
    (resetSimulation st).objB.trail = [] ∧
    (resetSimulation st).samples = ⟨[], [], [], [], []⟩ := by
  obtain ⟨r, l, s, d, w, h, tp, tsx, te, tl, z, oA, oB, sa, ps⟩ := st
  obtain ⟨ia, ca, ma, sma, cma, tra⟩ := oA
  obtain ⟨ib, cb, mb, smb, cmb, trb⟩ := oB
  exact ⟨rfl, rfl, rfl, rfl, rfl, rfl, rfl, rfl, rfl⟩

/-- C10: `pauseSimulation` clears the running flag and leaves every other
field of the simulation state unchanged; and when the clock is positive a
subsequent `startSimulation` does not reset, so it resumes with the same
clock, objects and sample series (with the running flag raised again). -/
theorem pause_only_clears_running (st : SimState) :
    ((pauseSimulation st).running = false ∧
     (pauseSimulation st).lastTs = st.lastTs ∧
     (pauseSimulation st).simTime = st.simTime ∧
     (pauseSimulation st).dpr = st.dpr ∧
     (pauseSimulation st).width = st.width ∧
     (pauseSimulation st).height = st.height ∧
     (pauseSimulation st).trackPad = st.trackPad ∧
     (pauseSimulation st).trackStartPx = st.trackStartPx ∧
     (pauseSimulation st).trackEndPx = st.trackEndPx ∧
     (pauseSimulation st).trackLenPx = st.trackLenPx ∧
     (pauseSimulation st).zones = st.zones ∧
     (pauseSimulation st).objA = st.objA ∧
     (pauseSimulation st).objB = st.objB ∧
     (pauseSimulation st).samples = st.samples ∧
     (pauseSimulation st).particles = st.particles) ∧
    (0 < st.simTime →
      (startSimulation (pauseSimulation st)).running = true ∧
      (startSimulation (pauseSimulation st)).simTime = st.simTime ∧
      (startSimulation (pauseSimulation st)).objA = st.objA ∧
      (startSimulation (pauseSimulation st)).objB = st.objB ∧
      (startSimulation (pauseSimulation st)).samples = st.samples) := by
  refine ⟨⟨rfl, rfl, rfl, rfl, rfl, rfl, rfl, rfl, rfl, rfl, rfl, rfl, rfl, rfl, rfl⟩, ?_⟩
  intro h
  have hns : ¬ st.simTime ≤ 0 := not_le.mpr h
  simp [startSimulation, pauseSimulation, hns]

/-- Witness for C10 at a concrete paused state with a positive clock. -/
theorem pause_only_clears_running_witness :
    (0:ℚ) < ({ initState with simTime := 2 } : SimState).simTime ∧
    (startSimulation (pauseSimulation { initState with simTime := 2 })).running = true ∧
    (startSimulation (pauseSimulation { initState with simTime := 2 })).simTime =
      ({ initState with simTime := 2 } : SimState).simTime := by
  refine ⟨by norm_num, ?_, ?_⟩
  · exact ((pause_only_clears_running _).2 (by norm_num)).1
  · exact ((pause_only_clears_running _).2 (by norm_num)).2.1

/-- C5: the per-frame effective speed is never negative, and under a
positive distance slider it never exceeds the fixed bound
baseSpeed × max(0.01, speedMult) × 6 (the clamp applied before friction
and turbo scaling). -/
theorem effective_speed_clamped (st : SimState) (p : Params) (obj : MovingObject)
    (hd : 0 < p.distance) :
    0 ≤ effectiveSpeedFor st p obj ∧
    effectiveSpeedFor st p obj ≤
      baseSpeed_mps p * max (1/100) (numOr obj.speedMult 1) * 6 := by
  have hb := baseSpeed_pos p hd
  refine ⟨effectiveSpeedFor_nonneg st p obj, ?_⟩
  have hhi : (0:ℚ) ≤ baseSpeed_mps p * max (1/100) (numOr obj.speedMult 1) * 6 :=
    mul_nonneg (mul_nonneg hb.le (le_trans (by norm_num) (le_max_left _ _))) (by norm_num)
  simp only [effectiveSpeedFor]
  rw [if_pos hb]
  exact clampQ_le_right _ _ _ hhi

/-- Witness for C5 at the default parameters and object A. -/
theorem effective_speed_clamped_witness :
    (0:ℚ) < testParams.distance ∧
    (0 ≤ effectiveSpeedFor initState testParams objAInit ∧
     effectiveSpeedFor initState testParams objAInit ≤
       baseSpeed_mps testParams * max (1/100) (numOr objAInit.speedMult 1) * 6) :=
  ⟨by norm_num [testParams], effective_speed_clamped initState testParams objAInit
    (by norm_num [testParams])⟩

/-- C4: across one tick with a non-negative frame delta, each object's
covered distance does not decrease and stays at most the configured total
distance. -/
theorem covered_monotone_bounded (p : Params) (ts : ℚ) (rng : List ℚ) (st : SimState)
    (hA0 : 0 ≤ st.objA.covered_m) (hAD : st.objA.covered_m ≤ totalDistMeters p)
    (hB0 : 0 ≤ st.objB.covered_m) (hBD : st.objB.covered_m ≤ totalDistMeters p)
    (hdt : 0 ≤ tickDt st ts) :
    (st.objA.covered_m ≤ (simTick p ts rng st).objA.covered_m ∧
      (simTick p ts rng st).objA.covered_m ≤ totalDistMeters p) ∧
    (st.objB.covered_m ≤ (simTick p ts rng st).objB.covered_m ∧
      (simTick p ts rng st).objB.covered_m ≤ totalDistMeters p) := by
  simp only [simTick]
  split
  · exact ⟨⟨le_rfl, hAD⟩, ⟨le_rfl, hBD⟩⟩
  · split
    · exact ⟨updateObject_covered_between st p _ _ _ _ st.objA hA0 hAD hdt,
        updateObject_covered_between st p _ _ _ _ st.objB hB0 hBD hdt⟩
    · exact ⟨updateObject_covered_between st p _ _ _ _ st.objA hA0 hAD hdt,
        updateObject_covered_between st p _ _ _ _ st.objB hB0 hBD hdt⟩

/-- Witness for C4 at the default parameters, one 0.1 s tick from rest. -/
theorem covered_monotone_bounded_witness :
    (0 ≤ runState.objA.covered_m ∧ runState.objA.covered_m ≤ totalDistMeters testParams ∧
     0 ≤ runState.objB.covered_m ∧ runState.objB.covered_m ≤ totalDistMeters testParams ∧
     0 ≤ tickDt runState 1100) ∧
    ((runState.objA.covered_m ≤ (simTick testParams 1100 [] runState).objA.covered_m ∧
      (simTick testParams 1100 [] runState).objA.covered_m ≤ totalDistMeters testParams) ∧
     (runState.objB.covered_m ≤ (simTick testParams 1100 [] runState).objB.covered_m ∧
      (simTick testParams 1100 [] runState).objB.covered_m ≤ totalDistMeters testParams)) := by
  have hA0 : 0 ≤ runState.objA.covered_m := by
    norm_num [runState, initState, rawState, computeZones, objAInit]
  have hAD : runState.objA.covered_m ≤ totalDistMeters testParams := by
    norm_num [runState, initState, rawState, computeZones, objAInit, totalDistMeters, testParams]
  have hB0 : 0 ≤ runState.objB.covered_m := by
    norm_num [runState, initState, rawState, computeZones, objBInit]
  have hBD : runState.objB.covered_m ≤ totalDistMeters testParams := by
    norm_num [runState, initState, rawState, computeZones, objBInit, totalDistMeters, testParams]
  have hdt : 0 ≤ tickDt runState 1100 := by
    norm_num [tickDt, runState, initState, rawState, computeZones]
  exact ⟨⟨hA0, hAD, hB0, hBD, hdt⟩,
    covered_monotone_bounded testParams 1100 [] runState hA0 hAD hB0 hBD hdt⟩

/-- C1 counterexample: from rest with distance 100 m, time 10 s, mass 1,
speedMult 1, zero friction, turbo 1 and a 0.1 s frame, the code advances
object A by a full 1 m in one tick (the speed is immediately the 10 m/s
effective value), whereas the spec's incremental model — massFactor
clamp(1/10, 0.5, 50) = 0.5, acceleration (10−0)/0.5 = 20 m/s², speed
2 m/s after the step — would advance it by only 0.2 m. -/
theorem speed_not_incremental_counterexample :
    (simTick testParams 1100 [] runState).objA.covered_m = 1 ∧
    specSpeedStep 10 0 1 0 (1/10) * (1/10) = 1/5 ∧
    ((1 : ℚ) ≠ 1/5) := by
  refine ⟨?_, by norm_num [specSpeedStep, specMassFactor, clampQ], by norm_num⟩
  norm_num [simTick, tickDt, runState, initState, rawState, computeZones, jsRound, jsRoundZ, testParams,
    updateObject, effectiveSpeedFor, baseSpeed_mps, numOr, distanceToPixel, totalDistMeters,
    zoneAtPx, clampQ, objAInit, objBInit, samplesMax, List.find?]

/-- C1 as amended: the object's speed is not persistent state integrated
by an acceleration model; it is recomputed directly each frame from the
parameters and the object's current covered distance (base × speedMult ×
zoneMultiplier × 1/mass, clamped), so two objects agreeing on mass,
speedMult and covered distance get identical speeds and identical
per-tick distance updates regardless of any prior history. -/
theorem speed_recomputed_memoryless (st : SimState) (p : Params) (f tb dt T : ℚ)
    (o1 o2 : MovingObject) (hm : o1.mass = o2.mass) (hs : o1.speedMult = o2.speedMult)
    (hc : o1.covered_m = o2.covered_m) :
    effectiveSpeedFor st p o1 = effectiveSpeedFor st p o2 ∧
    (updateObject st p f tb dt T o1).covered_m =
      (updateObject st p f tb dt T o2).covered_m := by
  have he : effectiveSpeedFor st p o1 = effectiveSpeedFor st p o2 := by
    simp only [effectiveSpeedFor, hm, hs, hc]
  refine ⟨he, ?_⟩
  simp only [updateObject, he, hc]

/-- Witness for C1's amended statement: object A versus a copy with a
different identity and a non-empty trail history. -/
theorem speed_recomputed_memoryless_witness :
    ({ objAInit with id := "X", trail := [(60, 1)] } : MovingObject).mass = objAInit.mass ∧
    ({ objAInit with id := "X", trail := [(60, 1)] } : MovingObject).speedMult =
      objAInit.speedMult ∧
    ({ objAInit with id := "X", trail := [(60, 1)] } : MovingObject).covered_m =
      objAInit.covered_m ∧
    (effectiveSpeedFor initState testParams { objAInit with id := "X", trail := [(60, 1)] } =
      effectiveSpeedFor initState testParams objAInit ∧
     (updateObject initState testParams 0 1 (1/10) (1/10)
        { objAInit with id := "X", trail := [(60, 1)] }).covered_m =
      (updateObject initState testParams 0 1 (1/10) (1/10) objAInit).covered_m) :=
  ⟨rfl, rfl, rfl, speed_recomputed_memoryless initState testParams 0 1 (1/10) (1/10)
    { objAInit with id := "X", trail := [(60, 1)] } objAInit rfl rfl rfl⟩

/-- A run state with object A 0.1 m short of the 100 m finish and object
B still at the start. -/
def nearFinishState : SimState :=
  { runState with objA := { objAInit with covered_m := 999/10 } }

/-- C2 counterexample: with A at 99.9 m of 100 m and B at the start, one
0.1 s tick puts A at the finish and clears the running flag even though B
(at 49/60 m) has not arrived and the elapsed simulation time (0.1 s) is
far below the claimed safety valve max(1.5 × 10 s, 10 s + 5 s) = 15 s. -/
theorem run_ends_with_one_arrived_counterexample :
    (simTick testParams 1100 [] nearFinishState).running = false ∧
    (simTick testParams 1100 [] nearFinishState).objA.covered_m = 100 ∧
    (simTick testParams 1100 [] nearFinishState).objB.covered_m = 49/60 ∧
    (simTick testParams 1100 [] nearFinishState).simTime = 1/10 ∧
    ¬ ((49:ℚ)/60 ≥ 100) ∧ ¬ ((1:ℚ)/10 > 15) := by
  refine ⟨?_, ?_, ?_, ?_, by norm_num, by norm_num⟩ <;>
    norm_num [simTick, tickDt, nearFinishState, runState, initState, rawState, computeZones, jsRound,
      jsRoundZ, testParams, updateObject, effectiveSpeedFor, baseSpeed_mps, numOr,
      distanceToPixel, totalDistMeters, zoneAtPx, clampQ, objAInit, objBInit, samplesMax,
      List.find?]

/-- C2 as amended: while running, one tick clears the running flag exactly
when at least one object's (clamped) covered distance has reached the
configured total distance; there is no safety-valve timeout, and the run
can end while the other object has not arrived. -/
theorem run_ends_iff_either_arrived (p : Params) (ts : ℚ) (rng : List ℚ) (st : SimState)
    (h : st.running = true) :
    ((simTick p ts rng st).running = false ↔
      (simTick p ts rng st).objA.covered_m ≥ totalDistMeters p ∨
      (simTick p ts rng st).objB.covered_m ≥ totalDistMeters p) := by
  simp only [simTick, h, not_true, if_false, Bool.false_eq_true, ite_false]
  split
  · next hEnded =>
    simpa using hEnded
  · next hEnded =>
    simpa [h] using hEnded

/-- Witness for C2's amended statement at the near-finish state. -/
theorem run_ends_iff_either_arrived_witness :
    nearFinishState.running = true ∧
    ((simTick testParams 1100 [] nearFinishState).running = false ↔
      (simTick testParams 1100 [] nearFinishState).objA.covered_m ≥
        totalDistMeters testParams ∨
      (simTick testParams 1100 [] nearFinishState).objB.covered_m ≥
        totalDistMeters testParams) :=
  ⟨rfl, run_ends_iff_either_arrived testParams 1100 [] nearFinishState rfl⟩

/-- C3 counterexample: a 500 ms frame gap is integrated in full — the
simulation clock advances by 0.5 s and object A moves 5 m in the single
step — so the 0.1 s step cap asserted by the claim does not exist. -/
theorem dt_cap_counterexample :
    (simTick testParams 1500 [] runState).simTime = 1/2 ∧
    (simTick testParams 1500 [] runState).objA.covered_m = 5 ∧
    ¬ ((1:ℚ)/2 ≤ 1/10) := by
  refine ⟨?_, ?_, by norm_num⟩ <;>
    norm_num [simTick, tickDt, runState, initState, rawState, computeZones, jsRound, jsRoundZ,
      testParams, updateObject, effectiveSpeedFor, baseSpeed_mps, numOr, distanceToPixel,
      totalDistMeters, zoneAtPx, clampQ, objAInit, objBInit, samplesMax, List.find?]

/-- C3 as amended: the frame delta passed to the physics update is the
raw elapsed timestamp difference divided by 1000, with no 0.1 s (or any)
cap: the simulation clock always advances by exactly (ts − lastTs)/1000. -/
theorem dt_unclamped (p : Params) (ts v : ℚ) (rng : List ℚ) (st : SimState)
    (hr : st.running = true) (hl : st.lastTs = some v) (hv : v ≠ 0) :
    (simTick p ts rng st).simTime = st.simTime + (ts - v) / 1000 := by
  have hdt : tickDt st ts = (ts - v) / 1000 := by
    simp [tickDt, hl, hv]
  simp only [simTick, hr, not_true, Bool.false_eq_true, ite_false, hdt]
  split <;> rfl

/-- Witness for C3's amended statement: one 0.5 s frame from `runState`. -/
theorem dt_unclamped_witness :
    runState.running = true ∧ runState.lastTs = some 1000 ∧ ((1000:ℚ) ≠ 0) ∧
    (simTick testParams 1500 [] runState).simTime =
      runState.simTime + ((1500:ℚ) - 1000) / 1000 :=
  ⟨rfl, rfl, by norm_num, dt_unclamped testParams 1500 1000 [] runState rfl rfl (by norm_num)⟩

/-- C6 counterexample: on the 1000-pixel canvas the normal/boost boundary
sits at pixel 368 (= 60 + 0.35 × 880), and `zoneAtPx` resolves that exact
position to the `normal` zone, not the `boost` zone: the intervals are
closed and the first matching zone wins, so the zone that *ends* at the
boundary shadows the one that starts there. -/
theorem zone_boundary_boost_counterexample :
    (zoneAtPx initState.zones 368).map Zone.id = some "normal" ∧
    ("normal" : String) ≠ "boost" := by
  refine ⟨?_, by decide⟩
  norm_num [initState, rawState, computeZones, zoneAtPx, jsRound, jsRoundZ, List.find?]

/-- C6 as amended: for any canvas width wide enough that the zones have
non-negative width, a position exactly at the normal/boost boundary
(startX + normalW) resolves to the `normal` zone — each zone interval is
closed and `zoneAtPx` returns the first match. -/
theorem zone_boundary_resolves_normal (st : SimState)
    (h : 0 ≤ st.width - 2 * jsRound (st.width * (6/100))) :
    (zoneAtPx (computeZones st).zones
        (jsRound (st.width * (6/100)) +
          (st.width - 2 * jsRound (st.width * (6/100))) * (35/100))).map Zone.id =
      some "normal" := by
  have hnW : 0 ≤ (st.width - 2 * jsRound (st.width * (6/100))) * (35/100) :=
    mul_nonneg h (by norm_num)
  simp only [computeZones, zoneAtPx]
  rw [List.find?_cons_of_pos _ ?_]
  · rfl
  · simp only [decide_eq_true_eq, ge_iff_le]
    constructor
    · linarith
    · apply le_of_eq
      ring

/-- Witness for C6's amended statement at the 1000-pixel canvas. -/
theorem zone_boundary_resolves_normal_witness :
    0 ≤ rawState.width - 2 * jsRound (rawState.width * (6/100)) ∧
    (zoneAtPx (computeZones rawState).zones
        (jsRound (rawState.width * (6/100)) +
          (rawState.width - 2 * jsRound (rawState.width * (6/100))) * (35/100))).map Zone.id =
      some "normal" :=
  ⟨by norm_num [rawState, jsRound, jsRoundZ],
    zone_boundary_resolves_normal rawState (by norm_num [rawState, jsRound, jsRoundZ])⟩

/-- C7 counterexample: the code applies friction as the factor
(1 − clamp(frictionPct, 0, 0.99)) — at frictionPct = 100 the derate is
0.99, not 0.9, so one 0.1 s tick from rest advances object A by 0.01 m
(1% of base speed × dt, not 10%); moreover the claimed frictionPct/200
formula gives 0.5 at 100, contradicting the claimed 0.9 value. -/
theorem friction_derate_counterexample :
    (simTick { testParams with friction := 100 } 1100 [] runState).objA.covered_m = 1/100 ∧
    clampQ 100 0 (99/100) = 99/100 ∧
    ((99:ℚ)/100 ≠ 9/10) ∧
    specFrictionDerate 100 ≠ 9/10 := by
  refine ⟨?_, by norm_num [clampQ], by norm_num, by norm_num [specFrictionDerate]⟩
  norm_num [simTick, tickDt, runState, initState, rawState, computeZones, jsRound, jsRoundZ,
    testParams, updateObject, effectiveSpeedFor, baseSpeed_mps, numOr, distanceToPixel,
    totalDistMeters, zoneAtPx, clampQ, objAInit, objBInit, samplesMax, List.find?]

/-- C7 as amended: the friction percentage acts multiplicatively through
the factor (1 − clamp(friction, 0, 0.99)): more friction never yields
more per-tick distance, and at friction = 100 the factor is exactly 0.01
(the target speed approaches 1% of the effective speed, not 10%). -/
theorem friction_factor_monotone (st : SimState) (p : Params) (tb dt T : ℚ)
    (o : MovingObject) (f1 f2 : ℚ) (h12 : f1 ≤ f2) (hdt : 0 ≤ dt) :
    (updateObject st p f2 tb dt T o).covered_m ≤ (updateObject st p f1 tb dt T o).covered_m ∧
    1 - clampQ 100 0 (99/100) = 1/100 := by
  refine ⟨?_, by norm_num [clampQ]⟩
  simp only [updateObject]
  apply clampQ_mono
  have he := effectiveSpeedFor_nonneg st p o
  have htb := clampT_nonneg tb
  have hf := clampQ_mono (v := f1) (w := f2) 0 (99/100) h12
  have h2 : effectiveSpeedFor st p o * (1 - clampQ f2 0 (99/100)) ≤
      effectiveSpeedFor st p o * (1 - clampQ f1 0 (99/100)) :=
    mul_le_mul_of_nonneg_left (by linarith) he
  have h3 := mul_le_mul_of_nonneg_right h2 htb
  have h4 := mul_le_mul_of_nonneg_right h3 hdt
  linarith

/-- Witness for C7's amended statement: friction 0 versus friction 100
over one 0.1 s step of object A. -/
theorem friction_factor_monotone_witness :
    ((0:ℚ) ≤ 100) ∧ ((0:ℚ) ≤ 1/10) ∧
    ((updateObject initState testParams 100 1 (1/10) (1/10) objAInit).covered_m ≤
      (updateObject initState testParams 0 1 (1/10) (1/10) objAInit).covered_m ∧
     1 - clampQ 100 0 (99/100) = 1/100) :=
  ⟨by norm_num, by norm_num,
    friction_factor_monotone initState testParams 1 (1/10) (1/10) objAInit 0 100
      (by norm_num) (by norm_num)⟩

/-- The per-object update reads the state's geometry and zones but never
its particle buffer, so the buffer's contents are irrelevant to it. -/
lemma updateObject_particles_irrel (r : Bool) (l : Option ℚ) (s d w h tp tsx te tl : ℚ)
    (z : List Zone) (oA oB : MovingObject) (sa : Samples) (ps : List Particle)
    (p : Params) (f tb dt T : ℚ) (o : MovingObject) :
    updateObject ⟨r, l, s, d, w, h, tp, tsx, te, tl, z, oA, oB, sa, ps⟩ p f tb dt T o =
      updateObject ⟨r, l, s, d, w, h, tp, tsx, te, tl, z, oA, oB, sa, []⟩ p f tb dt T o := rfl

/-- One tick preserves physics-equality: states agreeing on everything
but the particle buffer stay in agreement, whatever random draws each
side's particle rendering consumes. -/
lemma simTick_physEq (p : Params) (ts : ℚ) (rng1 rng2 : List ℚ) (st1 st2 : SimState)
    (h : eraseParticles st1 = eraseParticles st2) :
    eraseParticles (simTick p ts rng1 st1) = eraseParticles (simTick p ts rng2 st2) := by
  obtain ⟨r1, l1, s1, d1, w1, h1, tp1, tsx1, te1, tl1, z1, oA1, oB1, sa1, ps1⟩ := st1
  obtain ⟨r2, l2, s2, d2, w2, h2, tp2, tsx2, te2, tl2, z2, oA2, oB2, sa2, ps2⟩ := st2
  simp only [eraseParticles, SimState.mk.injEq, and_true] at h
  obtain ⟨rfl, rfl, rfl, rfl, rfl, rfl, rfl, rfl, rfl, rfl, rfl, rfl, rfl, rfl⟩ := h
  cases r1
  · rfl
  · simp only [simTick, updateObject_particles_irrel, tickDt]
    split
    · simp [eraseParticles]
    · split <;> simp [eraseParticles]

/-- A whole run preserves physics-equality when the two frame sequences
carry the same timestamps (the random streams may differ arbitrarily). -/
lemma runTicks_physEq (p : Params) (ticks1 ticks2 : List (ℚ × List ℚ)) (st1 st2 : SimState)
    (h : eraseParticles st1 = eraseParticles st2)
    (hts : ticks1.map Prod.fst = ticks2.map Prod.fst) :
    eraseParticles (runTicks p ticks1 st1) = eraseParticles (runTicks p ticks2 st2) := by
  induction ticks1 generalizing ticks2 st1 st2 with
  | nil =>
    cases ticks2 with
    | nil => exact h
    | cons b t2 => simp at hts
  | cons a t ih =>
    cases ticks2 with
    | nil => simp at hts
    | cons b t2 =>
      simp only [List.map_cons, List.cons.injEq] at hts
      obtain ⟨hab, ht⟩ := hts
      obtain ⟨ats, arng⟩ := a
      obtain ⟨bts, brng⟩ := b
      simp only at hab
      subst hab
      exact ih t2 _ _ (simTick_physEq p ats arng brng st1 st2 h) ht

/-- C8: the physics and sampling path is deterministic — two runs from
physics-equal states (identical up to the visual particle buffer), with
identical timestamp sequences but arbitrary, possibly different random
streams, produce identical sample series, covered distances and clocks:
randomness only ever reaches the particle effects. -/
theorem samples_deterministic (p : Params) (ticks1 ticks2 : List (ℚ × List ℚ))
    (st1 st2 : SimState) (hst : eraseParticles st1 = eraseParticles st2)
    (hts : ticks1.map Prod.fst = ticks2.map Prod.fst) :
    (runTicks p ticks1 st1).samples = (runTicks p ticks2 st2).samples ∧
    (runTicks p ticks1 st1).objA.covered_m = (runTicks p ticks2 st2).objA.covered_m ∧
    (runTicks p ticks1 st1).objB.covered_m = (runTicks p ticks2 st2).objB.covered_m ∧
    (runTicks p ticks1 st1).simTime = (runTicks p ticks2 st2).simTime := by
  have h := runTicks_physEq p ticks1 ticks2 st1 st2 hst hts
  have h1 := congrArg SimState.samples h
  have h2 := congrArg (fun s => s.objA.covered_m) h
  have h3 := congrArg (fun s => s.objB.covered_m) h
  have h4 := congrArg SimState.simTime h
  exact ⟨h1, h2, h3, h4⟩

/-- Witness for C8: one frame at the same timestamp with two different
random streams yields the same sample series. -/
theorem samples_deterministic_witness :
    eraseParticles runState = eraseParticles runState ∧
    ([((1100:ℚ), [(1:ℚ)/2, 1/3, 1/4, 1/5, 1/6, 1/7])].map Prod.fst =
      [((1100:ℚ), ([] : List ℚ))].map Prod.fst) ∧
    (runTicks testParams [(1100, [1/2, 1/3, 1/4, 1/5, 1/6, 1/7])] runState).samples =
      (runTicks testParams [(1100, [])] runState).samples :=
  ⟨rfl, rfl,
    (samples_deterministic testParams [(1100, [1/2, 1/3, 1/4, 1/5, 1/6, 1/7])]
      [(1100, [])] runState runState rfl rfl).1⟩

end FunWeb
